import Mathlib

/-!
Shallow embedding of the agent session/protocol layer of this repository:

* `src/frontend/src/components/agent/stores/agent-state.ts` — the zustand
  Conversation State Store (data model and its narrow mutation actions);
* `src/frontend/src/components/agent/hooks/useAgentActions.ts` — the
  suggestion application engine (`applySuggestion`);
* `src/frontend/src/components/agent/hooks/useAgentWebSocket.ts` — the
  connection manager, message dispatcher and outbound send paths.  That file
  holds two concatenated revisions of the hook; the later revision (the one
  with `stream_chunk` / `stream_complete`, the heartbeat and `disconnect`)
  is embedded, matching the line numbers the claims cite.

TypeScript conventions are carried over explicitly: optional / nullable
fields become `Option`, `undefined` and `null` both map to `none` except
where the distinction is observable (a step's `result` field, which the code
sets to `undefined`, `null` or an object — modelled by `StepResult`), string
truthiness (`""` is falsy) is modelled by dedicated helpers, and external
side effects (document-model calls, outbound frames, timers) are reified as
data so that theorems can talk about them.
-/

/-- `"user" | "assistant" | "system"` (agent-state.ts line 7). -/
inductive AgentRole
  | user
  | assistant
  | system
deriving DecidableEq

/-- `"new_cell" | "modify_cell" | "delete_cell" | "execute_cell"` (line 8). -/
inductive SuggestionType
  | new_cell
  | modify_cell
  | delete_cell
  | execute_cell
deriving DecidableEq

/-- `"pending" | "executing" | "complete" | "error" | "cancelled"` (line 9). -/
inductive ExecutionStatus
  | pending
  | executing
  | complete
  | error
  | cancelled
deriving DecidableEq

/-- `"before" | "after" | "replace"` (CodeSuggestion.position, line 16). -/
inductive SuggPosition
  | before
  | after
  | replace
deriving DecidableEq

/-- `CodeSuggestion` (agent-state.ts lines 11-19).  Optional fields are
`Option`; `autoExecute?: boolean` is `Option Bool` (absent = `undefined`,
which is falsy). -/
structure CodeSuggestion where
  id : String
  type : SuggestionType
  code : String
  cellId : Option String := none
  position : Option SuggPosition := none
  description : Option String := none
  autoExecute : Option Bool := none
deriving DecidableEq

/-- The `result{status, error?}` object carried by an `execution_result`
frame (useAgentWebSocket.ts lines 349-354). -/
structure ExecResultObj where
  status : String
  error : Option String := none
deriving DecidableEq

/-- Value of a step's `result?: any` field.  The code stores exactly three
shapes there: leaves it `undefined`, writes `null` (error branch of the
`execution_result` handler), or writes the result object (success branch). -/
inductive StepResult
  | undef
  | null
  | obj (r : ExecResultObj)
deriving DecidableEq

/-- `ExecutionStep` (agent-state.ts lines 21-29). -/
structure ExecutionStep where
  stepId : String
  description : String
  suggestion : Option CodeSuggestion := none
  status : ExecutionStatus
  progress : Option Nat := none
  result : StepResult := StepResult.undef
  error : Option String := none
deriving DecidableEq

/-- `AgentMessage` (agent-state.ts lines 31-37). -/
structure AgentMessage where
  id : String
  role : AgentRole
  content : String
  suggestions : Option (List CodeSuggestion) := none
  timestamp : Nat
deriving DecidableEq

/-- `"strict" | "balanced" | "permissive"` (line 49). -/
inductive SafetyMode
  | strict
  | balanced
  | permissive
deriving DecidableEq

/-- `AgentConfig` (agent-state.ts lines 39-50).  `temperature: number` holds
the literal 0.7 in the source; it is carried as a rational. -/
structure AgentConfig where
  enabled : Bool
  defaultModel : String
  customModel : Option String := none
  autoExecute : Bool
  requireApproval : Bool
  maxSteps : Nat
  streamResponses : Bool
  maxTokens : Nat
  temperature : Rat
  safetyMode : SafetyMode
deriving DecidableEq

/-- The store's state fields (agent-state.ts lines 52-77). -/
structure AgentState where
  isOpen : Bool
  width : Nat
  isMinimized : Bool
  messages : List AgentMessage
  isLoading : Bool
  streamingMessage : Option String
  streamingMessageId : Option String
  currentPlan : List ExecutionStep
  executingStepId : Option String
  pendingSuggestions : List CodeSuggestion
  config : AgentConfig
  availableModels : List String
  wsConnected : Bool
  wsError : Option String
  sessionId : Option String
  lastPingTime : Option Nat
deriving DecidableEq

/-- `DEFAULT_CONFIG` (agent-state.ts lines 106-117). -/
def DEFAULT_CONFIG : AgentConfig :=
  { enabled := true
    defaultModel := "openai/gpt-4o"
    customModel := none
    autoExecute := false
    requireApproval := true
    maxSteps := 10
    streamResponses := true
    maxTokens := 4096
    temperature := 7/10
    safetyMode := SafetyMode.balanced }

/-- The store's initial values (agent-state.ts lines 122-155). -/
def initialAgentState : AgentState :=
  { isOpen := false
    width := 400
    isMinimized := false
    messages := []
    isLoading := false
    streamingMessage := none
    streamingMessageId := none
    currentPlan := []
    executingStepId := none
    pendingSuggestions := []
    config := DEFAULT_CONFIG
    availableModels :=
      [ "openai/gpt-4o"
      , "openai/gpt-4o-mini"
      , "openai/gpt-3.5-turbo"
      , "anthropic/claude-3-5-sonnet-20241022"
      , "anthropic/claude-3-haiku-20240307"
      , "google/gemini-1.5-pro"
      , "groq/llama-3.1-70b-versatile" ]
    wsConnected := false
    wsError := none
    sessionId := none
    lastPingTime := none }

/-- JavaScript truthiness of an optional string: `undefined` and `""` are
falsy, every other string is truthy. -/
def strTruthy : Option String → Bool
  | some s => s ≠ ""
  | none => false

/-- JavaScript `a || b` on an optional string `a`: yields `b` when `a` is
absent or empty. -/
def jsOr (a : Option String) (b : String) : String :=
  match a with
  | some s => if s = "" then b else s
  | none => b

/-- `addMessage` (agent-state.ts lines 162-171): appends the message with a
freshly generated UUID `freshId` and timestamp `now` (`generateUUID()` and
`Date.now()` are supplied by the environment). -/
def addMessage (s : AgentState) (role : AgentRole) (content : String)
    (suggestions : Option (List CodeSuggestion)) (freshId : String)
    (now : Nat) : AgentState :=
  { s with
      messages := s.messages ++
        [{ id := freshId, role := role, content := content
           suggestions := suggestions, timestamp := now }] }

/-- A `Partial<AgentMessage>` as used by `updateMessage`: a field that is
`some` is present in the update object and overrides, `none` is absent. -/
structure PartialMessage where
  role : Option AgentRole := none
  content : Option String := none
  suggestions : Option (Option (List CodeSuggestion)) := none
deriving DecidableEq

/-- `{ ...msg, ...updates }` spread merge. -/
def mergeMessage (msg : AgentMessage) (u : PartialMessage) : AgentMessage :=
  { msg with
      role := u.role.getD msg.role
      content := u.content.getD msg.content
      suggestions := u.suggestions.getD msg.suggestions }

/-- `updateMessage` (agent-state.ts lines 173-177). -/
def updateMessage (s : AgentState) (id : String) (u : PartialMessage) :
    AgentState :=
  { s with
      messages := s.messages.map fun msg =>
        if msg.id = id then mergeMessage msg u else msg }

/-- `clearMessages` (agent-state.ts line 179). -/
def clearMessages (s : AgentState) : AgentState :=
  { s with messages := [], streamingMessage := none,
           streamingMessageId := none }

/-- `setLoading` (line 180). -/
def setLoading (s : AgentState) (isLoading : Bool) : AgentState :=
  { s with isLoading := isLoading }

/-- `setStreamingMessage` (lines 181-182); the second argument defaults to
`null` at call sites that omit it. -/
def setStreamingMessage (s : AgentState) (m : Option String)
    (mid : Option String) : AgentState :=
  { s with streamingMessage := m, streamingMessageId := mid }

/-- `setPlan` (line 184). -/
def setPlan (s : AgentState) (p : List ExecutionStep) : AgentState :=
  { s with currentPlan := p }

/-- The per-step function inside `updateStepStatus`'s `map`
(agent-state.ts lines 187-191): `step.stepId === stepId ?
{ ...step, status, result, error } : step`. -/
def updStep (stepId : String) (status : ExecutionStatus) (result : StepResult)
    (error : Option String) (step : ExecutionStep) : ExecutionStep :=
  if step.stepId = stepId then
    { step with status := status, result := result, error := error }
  else step

/-- `updateStepStatus` (agent-state.ts lines 185-192). -/
def updateStepStatus (s : AgentState) (stepId : String)
    (status : ExecutionStatus) (result : StepResult)
    (error : Option String) : AgentState :=
  { s with currentPlan := s.currentPlan.map (updStep stepId status result error) }

/-- `setExecutingStep` (line 193). -/
def setExecutingStep (s : AgentState) (sid : Option String) : AgentState :=
  { s with executingStepId := sid }

/-- `setWsConnected` (line 209): also writes `wsError` (to `null` when
connected, `undefined` otherwise — both are `none` here). -/
def setWsConnected (s : AgentState) (c : Bool) : AgentState :=
  { s with wsConnected := c, wsError := none }

/-- `setWsError` (line 210). -/
def setWsError (s : AgentState) (e : Option String) : AgentState :=
  { s with wsError := e }

/-- `setSessionId` (line 211). -/
def setSessionId (s : AgentState) (sid : Option String) : AgentState :=
  { s with sessionId := sid }

/-- `updatePingTime` (line 212), with `Date.now()` supplied as `now`. -/
def updatePingTime (s : AgentState) (now : Nat) : AgentState :=
  { s with lastPingTime := some now }

/-! ## Inbound frames and the dispatcher (useAgentWebSocket.ts, second
revision, `handleMessage`, lines 309-387) -/

/-- A parsed inbound frame.  Field optionality follows the handler's Use:
`stream_chunk.message_id` and `stream_complete.message_id` may be absent,
`execution_result.result` is accessed with `?.` so may be absent, and a
frame with any unrecognized `type` falls through the `switch` untouched. -/
inductive ServerMsg
  | initComplete (session_id : Option String)
  | streamChunk (accumulated : String) (message_id : Option String)
  | streamComplete (final_message : String) (message_id : Option String)
  | response (message : String) (suggestions : Option (List CodeSuggestion))
      (execution_plan : Option (List ExecutionStep))
  | executionResult (step_id : String) (result : Option ExecResultObj)
  | error (message : String)
  | cleared
  | pong
  | other
deriving DecidableEq

/-- `handleMessage` (useAgentWebSocket.ts lines 309-387).  `freshId` and
`now` stand for the `generateUUID()` / `Date.now()` calls the `addMessage`
store action performs for the frame, when it performs one. -/
def handleMessage (s : AgentState) (data : ServerMsg) (freshId : String)
    (now : Nat) : AgentState :=
  match data with
  | ServerMsg.initComplete sid => setSessionId s sid
  | ServerMsg.streamChunk accumulated message_id =>
      setStreamingMessage s (some accumulated) message_id
  | ServerMsg.streamComplete final_message message_id =>
      -- `if (data.message_id)` — string truthiness
      let s1 :=
        if strTruthy message_id then
          updateMessage s (jsOr message_id "") { content := some final_message }
        else
          addMessage s AgentRole.assistant final_message none freshId now
      let s2 := setStreamingMessage s1 none none
      setLoading s2 false
  | ServerMsg.response message suggestions execution_plan =>
      let s1 := setLoading s false
      let s2 := setStreamingMessage s1 none none
      let s3 := addMessage s2 AgentRole.assistant message suggestions freshId now
      match execution_plan with
      | some p => setPlan s3 p
      | none => s3
  | ServerMsg.executionResult step_id result =>
      match result with
      | some r =>
          if r.status = "success" then
            updateStepStatus s step_id ExecutionStatus.complete
              (StepResult.obj r) none
          else
            updateStepStatus s step_id ExecutionStatus.error
              StepResult.null r.error
      | none =>
          -- `data.result?.status` is undefined, so the else branch runs
          -- with `data.result?.error` also undefined
          updateStepStatus s step_id ExecutionStatus.error StepResult.null none
  | ServerMsg.error message =>
      let s1 := setLoading s false
      let s2 := setStreamingMessage s1 none none
      let s3 := setWsError s2 (some message)
      addMessage s3 AgentRole.assistant ("Error: " ++ message) none freshId now
  | ServerMsg.cleared => s
  | ServerMsg.pong => updatePingTime s now
  | ServerMsg.other => s

/-- Process a sequence of inbound frames in arrival order; each frame is
paired with the fresh UUID and timestamp its handling would draw. -/
def processServerMsgs (s : AgentState)
    (evs : List (ServerMsg × String × Nat)) : AgentState :=
  evs.foldl (fun st ev => handleMessage st ev.1 ev.2.1 ev.2.2) s

/-! ## Suggestion application engine (useAgentActions.ts, `applySuggestion`,
lines 14-86) -/

/-- A call against the external document model, in issue order:
`actions.createNewCell`, `actions.updateCellCode`, `actions.deleteCell`,
`client.sendRun`. -/
inductive DocAction
  | createCell (cellId : String) (before : Bool) (code : String)
  | updateCellCode (cellId : String) (code : String) (formattingChange : Bool)
  | deleteCell (cellId : String)
  | sendRun (cellIds : List String)
deriving DecidableEq

/-- `applySuggestion` (useAgentActions.ts lines 14-86).  `createdId` is the
value `actions.createNewCell` returns in the `new_cell` case (an external
call; the code guards on its truthiness before running the new cell).  The
result is the ordered list of document-model calls issued and the returned
cell id, or the thrown error message; every `throw` in the source happens
before any document-model call of its branch, so an `Except.error` result
carries no mutation. -/
def applySuggestion (sugg : CodeSuggestion) (createdId : Option String) :
    Except String (List DocAction × Option String) :=
  match sugg.type with
  | SuggestionType.new_cell =>
      -- const position = suggestion.cellId ?
      --   (suggestion.position === "before" ? "before" : "after") : "last";
      let before : Bool :=
        strTruthy sugg.cellId && decide (sugg.position = some SuggPosition.before)
      let create := DocAction.createCell (jsOr sugg.cellId "__end__") before sugg.code
      -- if (suggestion.autoExecute && cellId) await sendRun([cellId])
      match createdId with
      | some c =>
          if sugg.autoExecute = some true ∧ c ≠ "" then
            Except.ok ([create, DocAction.sendRun [c]], some c)
          else
            Except.ok ([create], some c)
      | none => Except.ok ([create], none)
  | SuggestionType.modify_cell =>
      match sugg.cellId with
      | some c =>
          if c = "" then Except.error "Cell ID required for modification"
          else
            let upd := DocAction.updateCellCode c sugg.code false
            if sugg.autoExecute = some true then
              Except.ok ([upd, DocAction.sendRun [c]], some c)
            else
              Except.ok ([upd], some c)
      | none => Except.error "Cell ID required for modification"
  | SuggestionType.delete_cell =>
      match sugg.cellId with
      | some c =>
          if c = "" then Except.error "Cell ID required for deletion"
          else Except.ok ([DocAction.deleteCell c], some c)
      | none => Except.error "Cell ID required for deletion"
  | SuggestionType.execute_cell =>
      match sugg.cellId with
      | some c =>
          if c = "" then Except.error "Cell ID required for execution"
          else Except.ok ([DocAction.sendRun [c]], some c)
      | none => Except.error "Cell ID required for execution"

/-- Whether an `applySuggestion` outcome requested execution of any cell. -/
def requestsRun (r : Except String (List DocAction × Option String)) : Bool :=
  match r with
  | Except.ok (acts, _) =>
      acts.any fun a =>
        match a with
        | DocAction.sendRun _ => true
        | _ => false
  | Except.error _ => false

/-! ## Outbound send paths (useAgentWebSocket.ts, second revision:
`sendMessage` lines 389-455, `executeSuggestion` lines 457-471,
`clearMemory` lines 473-483) -/

/-- `readyState` of the transport held in `ws.current`; `ws.current = null`
is `Option.none` at the use sites. -/
inductive WsReady
  | connecting
  | opened
deriving DecidableEq

/-- The `context` object built by `sendMessage`. -/
structure ChatContext where
  active_cell_id : Option String
  cell_codes : List (String × String)
  -- the source key is `variables`, a reserved word here
  vars : List (String × String)
  recent_errors : List String
  execution_history : List String
deriving DecidableEq

/-- An outbound frame this layer constructs. -/
inductive Envelope
  | init (config : AgentConfig)
  | chat (message : String) (context : ChatContext) (model : String)
      (stream : Bool)
  | execute (suggestion : CodeSuggestion)
  | clear
  | ping
deriving DecidableEq

/-- `sendMessage` (lines 389-455).  `wsReady` is the state of `ws.current`
(`none` when null); `cells` and `activeCellId` stand for the
`window.marimoGetCells` / `window.marimoGetActiveCell` fallbacks (empty /
null when unavailable), `vars` for the jotai `variables` atom.  On a
non-open transport it throws `"WebSocket not connected"` before touching any
state; otherwise it appends the user message, sets loading (and an empty
streaming buffer when streaming is configured) and emits the `chat`
envelope. -/
def sendMessage (wsReady : Option WsReady) (s : AgentState) (message : String)
    (cells : List (String × String)) (activeCellId : Option String)
    (vars : List (String × String)) (freshId : String) (now : Nat) :
    Except String (AgentState × Envelope) :=
  if wsReady = some WsReady.opened then
    -- const activeModel = config.customModel || config.defaultModel;
    let activeModel := jsOr s.config.customModel s.config.defaultModel
    let context : ChatContext :=
      { active_cell_id := activeCellId
        cell_codes := cells
        vars := vars
        recent_errors := []
        execution_history := [] }
    let s1 := addMessage s AgentRole.user message none freshId now
    let s2 := setLoading s1 true
    let s3 :=
      if s.config.streamResponses then setStreamingMessage s2 (some "") none
      else s2
    Except.ok (s3, Envelope.chat message context activeModel
      s.config.streamResponses)
  else Except.error "WebSocket not connected"

/-- `executeSuggestion` (lines 457-471): throws when the transport is not
open, otherwise emits the `execute` envelope (no store state is touched). -/
def executeSuggestion (wsReady : Option WsReady) (sugg : CodeSuggestion) :
    Except String Envelope :=
  if wsReady = some WsReady.opened then Except.ok (Envelope.execute sugg)
  else Except.error "WebSocket not connected"

/-- `clearMemory` (lines 473-483): silently returns (no throw, no envelope)
when the transport is not open, otherwise emits the `clear` envelope. -/
def clearMemory (wsReady : Option WsReady) : Option Envelope :=
  if wsReady = some WsReady.opened then some Envelope.clear
  else none

/-! ## Connection manager (useAgentWebSocket.ts, second revision:
`connect` lines 242-307, `disconnect` lines 498-515)

The hook keeps three mutable refs: `ws.current` (the transport handle),
`reconnectTimeout.current` (the id of the most recently scheduled reconnect
timer) and `pingInterval.current` (the heartbeat interval id).  The timers
live in the JavaScript runtime; `setTimeout` adds a live timer,
`clearTimeout` removes one, and overwriting a ref does NOT clear the timer
the old value named.  The model therefore carries, alongside the refs, the
multiset of live reconnect timers (with their due times) and live heartbeat
intervals, so that orphaned timers remain visible. -/

/-- Delay before a scheduled reconnection attempt (line 304: 3000 ms). -/
def RECONNECT_DELAY : Nat := 3000

/-- A live `setTimeout` reconnect timer: its id and absolute due time. -/
structure MgrTimer where
  id : Nat
  due : Nat
deriving DecidableEq

/-- Connection-manager state: the hook's refs plus the runtime's live
timers and the store fields the handlers write. -/
structure MgrState where
  ws : Option WsReady
  reconnectRef : Option Nat
  pingRef : Option Nat
  pendingReconnects : List MgrTimer
  pingIntervals : List Nat
  nextTimerId : Nat
  wsConnected : Bool
  wsError : Option String
deriving DecidableEq

/-- Manager state on mount, before the effect's first `connect()`. -/
def initMgrState : MgrState :=
  { ws := none
    reconnectRef := none
    pingRef := none
    pendingReconnects := []
    pingIntervals := []
    nextTimerId := 0
    wsConnected := false
    wsError := none }

/-- Events the manager reacts to: a `connect()` call (user, effect, or a
fired reconnect timer's callback), the transport `open` and `close` events,
a reconnect timer firing, and a `disconnect()` call. -/
inductive MgrEvent
  | connect
  | wsOpen
  | wsClose (code : Nat) (reason : String)
  | fireReconnect (t : Nat)
  | disconnect
deriving DecidableEq

/-- The body of `connect()` (lines 242-251): a no-op when the current
transport is OPEN, otherwise replaces `ws.current` with a fresh CONNECTING
transport.  It touches no timer. -/
def connectBody (s : MgrState) : MgrState :=
  match s.ws with
  | some WsReady.opened => s
  | _ => { s with ws := some WsReady.connecting }

/-- One event step of the connection manager at wall-clock time `now`. -/
def stepMgr (s : MgrState) (now : Nat) : MgrEvent → MgrState
  | MgrEvent.connect => connectBody s
  | MgrEvent.wsOpen =>
      -- onopen (lines 253-273): mark connected, clear the error, send init,
      -- start the heartbeat interval and store its id in pingInterval.current
      match s.ws with
      | some WsReady.connecting =>
          { s with
              ws := some WsReady.opened
              wsConnected := true
              wsError := none
              pingRef := some s.nextTimerId
              pingIntervals := s.pingIntervals ++ [s.nextTimerId]
              nextTimerId := s.nextTimerId + 1 }
      | _ => s
  | MgrEvent.wsClose code reason =>
      -- onclose (lines 289-306): mark disconnected, null the handle, stop
      -- the ref'd heartbeat; unless the close was clean (code 1000), record
      -- the error and schedule one reconnect timer, overwriting the ref
      -- (the previously ref'd timer, if any, is NOT cleared)
      let pings :=
        match s.pingRef with
        | some p => s.pingIntervals.filter (fun q => q != p)
        | none => s.pingIntervals
      let base := { s with wsConnected := false, ws := none,
                           pingRef := none, pingIntervals := pings }
      if code ≠ 1000 then
        { base with
            wsError := some ("Connection closed: " ++
              (if reason = "" then "Unknown reason" else reason))
            pendingReconnects := base.pendingReconnects ++
              [{ id := base.nextTimerId, due := now + RECONNECT_DELAY }]
            reconnectRef := some base.nextTimerId
            nextTimerId := base.nextTimerId + 1 }
      else base
  | MgrEvent.fireReconnect t =>
      -- a live timer fires once its due time has passed; its callback is
      -- `connect()` (lines 302-304) and it does not clear reconnectRef
      match s.pendingReconnects.find? (fun tm => tm.id == t) with
      | some tm =>
          if tm.due ≤ now then
            connectBody
              { s with pendingReconnects :=
                  s.pendingReconnects.filter (fun tm2 => tm2.id != t) }
          else s
      | none => s
  | MgrEvent.disconnect =>
      -- disconnect (lines 498-515): clear the ref'd reconnect timer, clear
      -- the ref'd heartbeat, close the transport with code 1000
      -- "Manual disconnect", null the handle, mark disconnected
      let s1 :=
        match s.reconnectRef with
        | some t =>
            { s with
                pendingReconnects :=
                  s.pendingReconnects.filter (fun tm => tm.id != t),
                reconnectRef := none }
        | none => s
      let s2 :=
        match s1.pingRef with
        | some p =>
            { s1 with
                pingIntervals := s1.pingIntervals.filter (fun q => q != p),
                pingRef := none }
        | none => s1
      { s2 with ws := none, wsConnected := false }

/-- A timestamped manager event. -/
structure TimedEvent where
  time : Nat
  ev : MgrEvent
deriving DecidableEq

/-- Run the manager over a sequence of timestamped events. -/
def runMgr (s : MgrState) (tr : List TimedEvent) : MgrState :=
  tr.foldl (fun st te => stepMgr st te.time te.ev) s

/-! ## Sequences of step updates (for the plan-shape invariant) -/

/-- The argument tuple of one `updateStepStatus` call. -/
structure StepUpd where
  stepId : String
  status : ExecutionStatus
  result : StepResult := StepResult.undef
  error : Option String := none
deriving DecidableEq

/-- Apply one `updateStepStatus` call described by a `StepUpd`. -/
def applyUpd (s : AgentState) (u : StepUpd) : AgentState :=
  updateStepStatus s u.stepId u.status u.result u.error

/-- Apply a sequence of `updateStepStatus` calls in order. -/
def runUpds (s : AgentState) (ups : List StepUpd) : AgentState :=
  ups.foldl applyUpd s

/-! ## Concrete inputs used by witnesses and counterexamples -/

/-- A `new_cell` suggestion with `autoExecute: true` and no target cell. -/
def demoSuggNew : CodeSuggestion :=
  { id := "s1", type := SuggestionType.new_cell, code := "x=1"
    autoExecute := some true }

/-- A `modify_cell` suggestion lacking its mandatory `cellId`. -/
def demoSuggNoTarget : CodeSuggestion :=
  { id := "s2", type := SuggestionType.modify_cell, code := "x=1" }

/-- The chunk/complete frame sequence of the streaming scenario, with the
fresh UUIDs and timestamps the handlers would draw. -/
def demoStreamFrames : List (ServerMsg × String × Nat) :=
  [ (ServerMsg.streamChunk "Here" (some "m1"), "u1", 1)
  , (ServerMsg.streamComplete "Here is a plot." (some "m1"), "u2", 2) ]

/-- Unrequested close, manual reconnect, second unrequested close — all
within one reconnect-delay window. -/
def demoCloseTrace : List TimedEvent :=
  [ { time := 0, ev := MgrEvent.connect }
  , { time := 10, ev := MgrEvent.wsClose 1006 "" }
  , { time := 500, ev := MgrEvent.connect }
  , { time := 1000, ev := MgrEvent.wsClose 1006 "" } ]

/-- The first half of `demoCloseTrace`: one connect and one unrequested
close, leaving exactly one pending reconnect timer. -/
def demoCloseOnce : List TimedEvent :=
  [ { time := 0, ev := MgrEvent.connect }
  , { time := 10, ev := MgrEvent.wsClose 1006 "" } ]

/-- An executing step carrying a previously recorded error and result. -/
def demoStepBoom : ExecutionStep :=
  { stepId := "step-1", description := "load data"
    status := ExecutionStatus.executing
    result := StepResult.obj { status := "partial" }
    error := some "boom" }

/-- A store state whose plan holds `demoStepBoom` alone. -/
def demoPlanState : AgentState :=
  { initialAgentState with currentPlan := [demoStepBoom] }

/-- `demoStepBoom` after `updateStepStatus "step-1" complete null undefined`:
outcome fields overwritten, everything else kept. -/
def demoStepDone : ExecutionStep :=
  { demoStepBoom with status := ExecutionStatus.complete
                      result := StepResult.null, error := none }

/-! # Helper lemmas -/

/-- `updStep` never changes a step's id. -/
theorem updStep_stepId (sid : String) (st : ExecutionStatus) (r : StepResult)
    (e : Option String) (step : ExecutionStep) :
    (updStep sid st r e step).stepId = step.stepId := by
  unfold updStep
  split <;> rfl

/-- `updStep` never changes a step's description, suggestion or progress. -/
theorem updStep_shape (sid : String) (st : ExecutionStatus) (r : StepResult)
    (e : Option String) (step : ExecutionStep) :
    (updStep sid st r e step).description = step.description
    ∧ (updStep sid st r e step).suggestion = step.suggestion
    ∧ (updStep sid st r e step).progress = step.progress := by
  unfold updStep
  split <;> exact ⟨rfl, rfl, rfl⟩

/-- Positional characterization of one `updateStepStatus` call. -/
theorem updateStepStatus_getElem (s : AgentState) (sid : String)
    (st : ExecutionStatus) (r : StepResult) (e : Option String) (i : Nat) :
    (updateStepStatus s sid st r e).currentPlan[i]?
      = (s.currentPlan[i]?).map (updStep sid st r e) :=
  List.getElem?_map (updStep sid st r e) s.currentPlan i

/-- `updateStepStatus` preserves the plan's length. -/
theorem updateStepStatus_length (s : AgentState) (sid : String)
    (st : ExecutionStatus) (r : StepResult) (e : Option String) :
    (updateStepStatus s sid st r e).currentPlan.length
      = s.currentPlan.length :=
  List.length_map s.currentPlan (updStep sid st r e)

/-- Mapping `updStep` over a plan without any matching step is the
identity. -/
theorem map_updStep_eq_self (sid : String) (st : ExecutionStatus)
    (r : StepResult) (e : Option String) (l : List ExecutionStep)
    (h : ∀ step ∈ l, step.stepId ≠ sid) :
    l.map (updStep sid st r e) = l := by
  induction l with
  | nil => rfl
  | cons a as ih =>
      have ha : a.stepId ≠ sid := h a (List.mem_cons_self a as)
      have has : ∀ step ∈ as, step.stepId ≠ sid := fun step hs =>
        h step (List.mem_cons_of_mem a hs)
      simp [List.map, updStep, ha, ih has]

/-- A fired sequence of updates preserves the plan's length. -/
theorem runUpds_length (ups : List StepUpd) (s : AgentState) :
    (runUpds s ups).currentPlan.length = s.currentPlan.length := by
  induction ups generalizing s with
  | nil => rfl
  | cons u us ih =>
      have h1 : (applyUpd s u).currentPlan.length = s.currentPlan.length :=
        updateStepStatus_length s u.stepId u.status u.result u.error
      calc (runUpds (applyUpd s u) us).currentPlan.length
          = (applyUpd s u).currentPlan.length := ih (applyUpd s u)
        _ = s.currentPlan.length := h1

/-- A fired sequence of updates preserves every position's step id. -/
theorem runUpds_stepId (ups : List StepUpd) (s : AgentState) (i : Nat) :
    ((runUpds s ups).currentPlan[i]?).map ExecutionStep.stepId
      = (s.currentPlan[i]?).map ExecutionStep.stepId := by
  induction ups generalizing s with
  | nil => rfl
  | cons u us ih =>
      have h1 : ((applyUpd s u).currentPlan[i]?).map ExecutionStep.stepId
          = (s.currentPlan[i]?).map ExecutionStep.stepId := by
        rw [show (applyUpd s u).currentPlan[i]?
              = (s.currentPlan[i]?).map (updStep u.stepId u.status u.result u.error)
            from updateStepStatus_getElem s u.stepId u.status u.result u.error i]
        cases s.currentPlan[i]? with
        | none => rfl
        | some step => simp [updStep_stepId]
      calc ((runUpds (applyUpd s u) us).currentPlan[i]?).map ExecutionStep.stepId
          = ((applyUpd s u).currentPlan[i]?).map ExecutionStep.stepId :=
            ih (applyUpd s u)
        _ = (s.currentPlan[i]?).map ExecutionStep.stepId := h1

/-- A fired sequence of updates preserves every position's description,
suggestion and progress fields. -/
theorem runUpds_shape (ups : List StepUpd) (s : AgentState) (i : Nat) :
    ((runUpds s ups).currentPlan[i]?).map
        (fun step => (step.description, step.suggestion, step.progress))
      = (s.currentPlan[i]?).map
        (fun step => (step.description, step.suggestion, step.progress)) := by
  induction ups generalizing s with
  | nil => rfl
  | cons u us ih =>
      have h1 : ((applyUpd s u).currentPlan[i]?).map
            (fun step => (step.description, step.suggestion, step.progress))
          = (s.currentPlan[i]?).map
            (fun step => (step.description, step.suggestion, step.progress)) := by
        rw [show (applyUpd s u).currentPlan[i]?
              = (s.currentPlan[i]?).map (updStep u.stepId u.status u.result u.error)
            from updateStepStatus_getElem s u.stepId u.status u.result u.error i]
        cases s.currentPlan[i]? with
        | none => rfl
        | some step =>
            have h2 := updStep_shape u.stepId u.status u.result u.error step
            simp [h2.1, h2.2.1, h2.2.2]
      calc ((runUpds (applyUpd s u) us).currentPlan[i]?).map
            (fun step => (step.description, step.suggestion, step.progress))
          = ((applyUpd s u).currentPlan[i]?).map
            (fun step => (step.description, step.suggestion, step.progress)) :=
            ih (applyUpd s u)
        _ = _ := h1

/-! # Claim theorems -/

/-- C5: a `modify_cell`, `delete_cell` or `execute_cell` suggestion whose
`cellId` is missing (absent or empty, i.e. falsy) makes `applySuggestion`
throw a validation error that is distinct per kind, and the error return
carries no document-model call. -/
theorem applyMissingTargetFailsDistinctly (sugg : CodeSuggestion)
    (cid : Option String) :
    (sugg.type = SuggestionType.modify_cell → strTruthy sugg.cellId = false →
        applySuggestion sugg cid = Except.error "Cell ID required for modification")
    ∧ (sugg.type = SuggestionType.delete_cell → strTruthy sugg.cellId = false →
        applySuggestion sugg cid = Except.error "Cell ID required for deletion")
    ∧ (sugg.type = SuggestionType.execute_cell → strTruthy sugg.cellId = false →
        applySuggestion sugg cid = Except.error "Cell ID required for execution")
    ∧ ("Cell ID required for modification" ≠ "Cell ID required for deletion"
       ∧ "Cell ID required for modification" ≠ "Cell ID required for execution"
       ∧ "Cell ID required for deletion" ≠ "Cell ID required for execution") := by
  refine ⟨?_, ?_, ?_, by decide, by decide, by decide⟩ <;>
    · intro htype hfalsy
      cases hc : sugg.cellId with
      | none => simp [applySuggestion, htype, hc]
      | some c =>
          have hc0 : c = "" := by
            by_contra hne
            rw [hc] at hfalsy
            simp [strTruthy, hne] at hfalsy
          simp [applySuggestion, htype, hc, hc0]

/-- Witness for C5 at the concrete `modify_cell` suggestion lacking
`cellId`. -/
theorem applyMissingTargetFailsDistinctly_witness :
    strTruthy demoSuggNoTarget.cellId = false
    ∧ applySuggestion demoSuggNoTarget none
        = Except.error "Cell ID required for modification" :=
  ⟨rfl, (applyMissingTargetFailsDistinctly demoSuggNoTarget none).1 rfl rfl⟩

/-- C6: an `updateStepStatus` call whose `stepId` matches no step of the
current plan leaves the whole store state — the plan in particular —
unchanged. -/
theorem unknownStepIdLeavesStateUnchanged (s : AgentState) (sid : String)
    (st : ExecutionStatus) (r : StepResult) (e : Option String)
    (h : ∀ step ∈ s.currentPlan, step.stepId ≠ sid) :
    updateStepStatus s sid st r e = s := by
  show { s with currentPlan := s.currentPlan.map (updStep sid st r e) } = s
  rw [map_updStep_eq_self sid st r e s.currentPlan h]

/-- Witness for C6 at a concrete one-step plan and an unknown step id. -/
theorem unknownStepIdLeavesStateUnchanged_witness :
    (∀ step ∈ demoPlanState.currentPlan, step.stepId ≠ "zz")
    ∧ updateStepStatus demoPlanState "zz" ExecutionStatus.complete
        StepResult.undef none = demoPlanState :=
  ⟨by decide, unknownStepIdLeavesStateUnchanged demoPlanState "zz"
    ExecutionStatus.complete StepResult.undef none (by decide)⟩

/-- C9: `clearMessages` empties the history and clears the open streaming
message and its id, while leaving connection state, error flag, plan,
configuration and session id untouched. -/
theorem clearMessagesFrame (s : AgentState) :
    (clearMessages s).messages = []
    ∧ (clearMessages s).streamingMessage = none
    ∧ (clearMessages s).streamingMessageId = none
    ∧ (clearMessages s).wsConnected = s.wsConnected
    ∧ (clearMessages s).wsError = s.wsError
    ∧ (clearMessages s).currentPlan = s.currentPlan
    ∧ (clearMessages s).config = s.config
    ∧ (clearMessages s).sessionId = s.sessionId
    ∧ (clearMessages s).isLoading = s.isLoading
    ∧ (clearMessages s).pendingSuggestions = s.pendingSuggestions :=
  ⟨rfl, rfl, rfl, rfl, rfl, rfl, rfl, rfl, rfl, rfl⟩

/-- C10: on the step whose id matches, `updateStepStatus` overwrites
exactly `status`, `result` and `error` with the supplied arguments
(`undefined` when omitted at a call site is `none` / `StepResult.undef`
here) and preserves `stepId`, `description`, `suggestion` and `progress`;
on any other step it changes nothing. -/
theorem updateStepOverwritesOutcomeFields (s : AgentState) (sid : String)
    (st : ExecutionStatus) (r : StepResult) (e : Option String) (i : Nat)
    (step step' : ExecutionStep)
    (hpre : s.currentPlan[i]? = some step)
    (hpost : (updateStepStatus s sid st r e).currentPlan[i]? = some step') :
    (step.stepId = sid →
        step'.status = st ∧ step'.result = r ∧ step'.error = e
        ∧ step'.stepId = step.stepId ∧ step'.description = step.description
        ∧ step'.suggestion = step.suggestion ∧ step'.progress = step.progress)
    ∧ (step.stepId ≠ sid → step' = step) := by
  rw [updateStepStatus_getElem s sid st r e i, hpre] at hpost
  have hstep' : step' = updStep sid st r e step :=
    (Option.some.injEq _ _).mp hpost.symm
  constructor
  · intro hmatch
    rw [hstep']
    unfold updStep
    rw [if_pos hmatch]
    exact ⟨rfl, rfl, rfl, rfl, rfl, rfl, rfl⟩
  · intro hmiss
    rw [hstep']
    unfold updStep
    rw [if_neg hmiss]

/-- Witness for C10: completing a step that carried an error and a result,
with both optional arguments omitted for `result`/`error` as the
`execution_result` success handler would not — here `result := null`,
`error` omitted — erases the previously recorded error. -/
theorem updateStepOverwritesOutcomeFields_witness :
    demoStepBoom.error = some "boom"
    ∧ demoStepDone.error = none ∧ demoStepDone.status = ExecutionStatus.complete
    ∧ demoStepDone.description = demoStepBoom.description :=
  ⟨rfl,
   ((updateStepOverwritesOutcomeFields demoPlanState "step-1"
      ExecutionStatus.complete StepResult.null none 0 demoStepBoom demoStepDone
      rfl rfl).1 rfl).2.2.1,
   ((updateStepOverwritesOutcomeFields demoPlanState "step-1"
      ExecutionStatus.complete StepResult.null none 0 demoStepBoom demoStepDone
      rfl rfl).1 rfl).1,
   ((updateStepOverwritesOutcomeFields demoPlanState "step-1"
      ExecutionStatus.complete StepResult.null none 0 demoStepBoom demoStepDone
      rfl rfl).1 rfl).2.2.2.2.1⟩

/-- C7: installing a plan with `setPlan` and firing any sequence of
`updateStepStatus` calls never changes the plan's length, the position or
id of any step, or any step's description/suggestion/progress fields; each
single call rewrites position `i` exactly by `updStep`, which touches only
the matching step and only its `status`/`result`/`error` fields. -/
theorem planShapeStableUnderUpdates (s : AgentState)
    (p : List ExecutionStep) (ups : List StepUpd) :
    (runUpds (setPlan s p) ups).currentPlan.length = p.length
    ∧ (∀ i : Nat, ((runUpds (setPlan s p) ups).currentPlan[i]?).map
          ExecutionStep.stepId = (p[i]?).map ExecutionStep.stepId)
    ∧ (∀ i : Nat, ((runUpds (setPlan s p) ups).currentPlan[i]?).map
          (fun step => (step.description, step.suggestion, step.progress))
        = (p[i]?).map
          (fun step => (step.description, step.suggestion, step.progress)))
    ∧ (∀ (s0 : AgentState) (u : StepUpd) (i : Nat),
        (applyUpd s0 u).currentPlan[i]?
          = (s0.currentPlan[i]?).map
              (updStep u.stepId u.status u.result u.error)) :=
  ⟨runUpds_length ups (setPlan s p),
   fun i => runUpds_stepId ups (setPlan s p) i,
   fun i => runUpds_shape ups (setPlan s p) i,
   fun s0 u i => updateStepStatus_getElem s0 u.stepId u.status u.result u.error i⟩

/-- C1 counterexample: with the persisted default configuration
(`autoExecute: false`) and a suggestion carrying `autoExecute: true`,
`applySuggestion` nevertheless issues a `sendRun` for the created cell —
the claimed conjunction with `config.autoExecute` is not implemented
(`applySuggestion` does not read the config at all). -/
theorem applyIgnoresConfigAutoExecute :
    DEFAULT_CONFIG.autoExecute = false
    ∧ demoSuggNew.autoExecute = some true
    ∧ applySuggestion demoSuggNew (some "c1")
        = Except.ok ([ DocAction.createCell "__end__" false "x=1"
                     , DocAction.sendRun ["c1"] ], some "c1")
    ∧ requestsRun (applySuggestion demoSuggNew (some "c1")) = true :=
  ⟨rfl, rfl, rfl, rfl⟩

/-- C1 amended: effective auto-execute for the local apply path is
`suggestion.autoExecute` alone.  Whenever the suggestion carries
`autoExecute: true` (and, for `new_cell`, cell creation returned a truthy
id; for `modify_cell`, a truthy target is present), `applySuggestion`
requests execution of the affected cell — regardless of any
`config.autoExecute` value, which it never consults. -/
theorem applyExecutesOnSuggestionFlagAlone (sugg : CodeSuggestion)
    (c : String) (cid : Option String) :
    (sugg.type = SuggestionType.new_cell → sugg.autoExecute = some true →
        c ≠ "" → requestsRun (applySuggestion sugg (some c)) = true)
    ∧ (sugg.type = SuggestionType.modify_cell → sugg.autoExecute = some true →
        strTruthy sugg.cellId = true →
        requestsRun (applySuggestion sugg cid) = true) := by
  constructor
  · intro htype hauto hc
    simp [applySuggestion, htype, hauto, hc, requestsRun]
  · intro htype hauto htruthy
    cases hcell : sugg.cellId with
    | none => rw [hcell] at htruthy; simp [strTruthy] at htruthy
    | some tgt =>
        have htgt : tgt ≠ "" := by
          rw [hcell] at htruthy
          simpa [strTruthy] using htruthy
        simp [applySuggestion, htype, hauto, hcell, htgt, requestsRun]

/-- Witness for the amended C1 at the concrete `new_cell` suggestion. -/
theorem applyExecutesOnSuggestionFlagAlone_witness :
    requestsRun (applySuggestion demoSuggNew (some "c1")) = true :=
  (applyExecutesOnSuggestionFlagAlone demoSuggNew "c1" none).1 rfl rfl
    (by decide)

/-- C2 (code bug): processing a `stream_chunk` and then the
`stream_complete` that shares its `message_id`, starting from the initial
store, leaves the conversation with NO message at all — `updateMessage`
looks for a message whose id equals the server-chosen `message_id`, but
message ids are client-generated UUIDs, so the final text is dropped and
only the streaming buffer is cleared. -/
theorem streamedFinalMessageNeverLands :
    (processServerMsgs initialAgentState demoStreamFrames).messages = []
    ∧ (processServerMsgs initialAgentState demoStreamFrames).streamingMessage
        = none
    ∧ (processServerMsgs initialAgentState demoStreamFrames).streamingMessageId
        = none
    ∧ (processServerMsgs initialAgentState
        [demoStreamFrames.headD (ServerMsg.other, "", 0)]).streamingMessage
        = some "Here" :=
  ⟨rfl, rfl, rfl, rfl⟩

/-- C8 counterexample: a `clear` request while no open connection exists
does not fail — `clearMemory` silently returns, sending nothing. -/
theorem clearWhileDisconnectedSilent :
    clearMemory none = none ∧ clearMemory (some WsReady.connecting) = none :=
  ⟨rfl, rfl⟩

/-- C8 amended: while no open connection exists, `sendMessage` and
`executeSuggestion` fail fast with the error `"WebSocket not connected"`,
thrown before any conversation-state change (the error return carries no
state); `clearMemory`, however, silently does nothing rather than failing. -/
theorem sendPathsWhileDisconnected (wsReady : Option WsReady)
    (h : wsReady ≠ some WsReady.opened) (s : AgentState) (message : String)
    (cells : List (String × String)) (activeCellId : Option String)
    (vars : List (String × String)) (freshId : String) (now : Nat)
    (sugg : CodeSuggestion) :
    sendMessage wsReady s message cells activeCellId vars freshId now
      = Except.error "WebSocket not connected"
    ∧ executeSuggestion wsReady sugg
      = Except.error "WebSocket not connected"
    ∧ clearMemory wsReady = none := by
  refine ⟨?_, ?_, ?_⟩ <;> simp [sendMessage, executeSuggestion, clearMemory, h]

/-- Witness for the amended C8 with a null transport handle. -/
theorem sendPathsWhileDisconnected_witness :
    sendMessage none initialAgentState "plot y" [] none [] "u1" 5
      = Except.error "WebSocket not connected"
    ∧ executeSuggestion none demoSuggNoTarget
      = Except.error "WebSocket not connected"
    ∧ clearMemory none = none :=
  sendPathsWhileDisconnected none (by decide) initialAgentState "plot y"
    [] none [] "u1" 5 demoSuggNoTarget


/-! # Connection-manager lemmas -/

/-- `connect()` touches neither the pending reconnect timers nor the timer
refs. -/
theorem connectBody_timers (s : MgrState) :
    (connectBody s).pendingReconnects = s.pendingReconnects
    ∧ (connectBody s).reconnectRef = s.reconnectRef
    ∧ (connectBody s).pingRef = s.pingRef
    ∧ (connectBody s).nextTimerId = s.nextTimerId := by
  unfold connectBody
  cases hws : s.ws with
  | none => exact ⟨rfl, rfl, rfl, rfl⟩
  | some w => cases w <;> exact ⟨rfl, rfl, rfl, rfl⟩

/-- An unrequested close (code other than 1000) appends exactly one new
pending reconnect timer, due one delay later, and points the ref at it —
without clearing the previously ref'd timer. -/
theorem close_schedules_one (s : MgrState) (now : Nat) (code : Nat)
    (reason : String) (h : code ≠ 1000) :
    (stepMgr s now (MgrEvent.wsClose code reason)).pendingReconnects
      = s.pendingReconnects
        ++ [{ id := s.nextTimerId, due := now + RECONNECT_DELAY }]
    ∧ (stepMgr s now (MgrEvent.wsClose code reason)).reconnectRef
      = some s.nextTimerId := by
  simp [stepMgr, h]

/-- A requested (clean, code 1000) close schedules nothing. -/
theorem close_clean_schedules_none (s : MgrState) (now : Nat)
    (reason : String) :
    (stepMgr s now (MgrEvent.wsClose 1000 reason)).pendingReconnects
      = s.pendingReconnects
    ∧ (stepMgr s now (MgrEvent.wsClose 1000 reason)).reconnectRef
      = s.reconnectRef := by
  simp [stepMgr]

/-- Any manager step taken at a time `now` with `b ≤ now + RECONNECT_DELAY`
preserves a lower bound `b` on all pending reconnect due times. -/
theorem stepMgr_preserves_due_lb (b : Nat) (s : MgrState) (now : Nat)
    (e : MgrEvent) (hs : ∀ tm ∈ s.pendingReconnects, b ≤ tm.due)
    (hn : b ≤ now + RECONNECT_DELAY) :
    ∀ tm ∈ (stepMgr s now e).pendingReconnects, b ≤ tm.due := by
  cases e with
  | connect =>
      intro tm hm
      rw [show stepMgr s now MgrEvent.connect = connectBody s from rfl,
          (connectBody_timers s).1] at hm
      exact hs tm hm
  | wsOpen =>
      intro tm hm
      simp only [stepMgr] at hm
      split at hm
      · exact hs tm hm
      · exact hs tm hm
  | wsClose code reason =>
      intro tm hm
      simp only [stepMgr] at hm
      split at hm
      · rcases List.mem_append.mp hm with hold | hnew
        · exact hs tm hold
        · rw [List.mem_singleton.mp hnew]
          exact hn
      · exact hs tm hm
  | fireReconnect t =>
      intro tm hm
      simp only [stepMgr] at hm
      split at hm
      · rename_i tmf hf
        split at hm
        · rw [(connectBody_timers _).1] at hm
          exact hs tm (List.mem_of_mem_filter hm)
        · exact hs tm hm
      · exact hs tm hm
  | disconnect =>
      intro tm hm
      simp only [stepMgr] at hm
      split at hm <;> split at hm <;>
        first
          | exact hs tm hm
          | exact hs tm (List.mem_of_mem_filter hm)

/-- Running a trace whose events all respect the bound preserves the lower
bound on pending reconnect due times. -/
theorem runMgr_preserves_due_lb (b : Nat) (tr : List TimedEvent) :
    ∀ s : MgrState, (∀ tm ∈ s.pendingReconnects, b ≤ tm.due) →
      (∀ te ∈ tr, b ≤ te.time + RECONNECT_DELAY) →
      ∀ tm ∈ (runMgr s tr).pendingReconnects, b ≤ tm.due := by
  induction tr with
  | nil => intro s hs _; exact hs
  | cons te rest ih =>
      intro s hs htr
      exact ih (stepMgr s te.time te.ev)
        (stepMgr_preserves_due_lb b s te.time te.ev hs
          (htr te (List.mem_cons_self te rest)))
        (fun te2 h2 => htr te2 (List.mem_cons_of_mem te h2))

/-- A reconnect timer whose due time has not been reached yet (and a fortiori
an unknown timer id) fires as a no-op. -/
theorem fireReconnect_noop (s : MgrState) (now2 t : Nat)
    (hs : ∀ tm ∈ s.pendingReconnects, now2 < tm.due) :
    stepMgr s now2 (MgrEvent.fireReconnect t) = s := by
  simp only [stepMgr]
  split
  · rename_i tmf hf
    rw [if_neg (Nat.not_le_of_lt (hs tmf (List.mem_of_find?_eq_some hf)))]
  · rfl

/-- `disconnect()` empties the pending reconnect timers provided the ref'd
timer was the only pending one. -/
theorem disconnect_pending_nil (s : MgrState) (d : Nat)
    (h : ∀ tm ∈ s.pendingReconnects, s.reconnectRef = some tm.id) :
    (stepMgr s d MgrEvent.disconnect).pendingReconnects = [] := by
  cases href : s.reconnectRef with
  | some t =>
      have hfil : s.pendingReconnects.filter (fun tm => tm.id != t) = [] := by
        refine List.filter_eq_nil_iff.mpr (fun tm hm => ?_)
        have h2 := h tm hm
        rw [href] at h2
        have h4 := Option.some.inj h2
        simp [h4]
      cases hp : s.pingRef with
      | some p => simp [stepMgr, href, hp, hfil]
      | none => simp [stepMgr, href, hp, hfil]
  | none =>
      have hnil : s.pendingReconnects = [] := by
        cases hl : s.pendingReconnects with
        | nil => rfl
        | cons a as =>
            have h2 := h a (hl ▸ List.mem_cons_self a as)
            rw [href] at h2
            cases h2
      cases hp : s.pingRef with
      | some p => simp [stepMgr, href, hp, hnil]
      | none => simp [stepMgr, href, hp, hnil]

/-- `disconnect()` always nulls both timer refs, nulls the transport handle
and marks the connection disconnected. -/
theorem disconnect_effects (s : MgrState) (d : Nat) :
    (stepMgr s d MgrEvent.disconnect).reconnectRef = none
    ∧ (stepMgr s d MgrEvent.disconnect).pingRef = none
    ∧ (stepMgr s d MgrEvent.disconnect).ws = none
    ∧ (stepMgr s d MgrEvent.disconnect).wsConnected = false := by
  cases href : s.reconnectRef <;> cases hp : s.pingRef <;>
    simp [stepMgr, href, hp]

/-- C3 counterexample: after an unrequested close at t=0ms, a manual
`connect()` at t=500ms and a second unrequested close at t=1000ms, TWO
reconnect timers are pending simultaneously; moreover the manual `connect()`
left the then-pending timer (id 0, due 3010ms) untouched — `connect()`
cancels nothing. -/
theorem multipleReconnectsPending :
    (runMgr initMgrState demoCloseTrace).pendingReconnects.length = 2
    ∧ (runMgr initMgrState demoCloseOnce).pendingReconnects
        = [{ id := 0, due := 3010 }]
    ∧ (stepMgr (runMgr initMgrState demoCloseOnce) 500
        MgrEvent.connect).pendingReconnects
        = [{ id := 0, due := 3010 }] := by
  decide

/-- C3 amended: each unrequested close (code other than 1000) schedules one
new reconnect timer and overwrites the stored handle to it, without
cancelling the previously pending timer, so several attempts can be pending
at once; and `connect()` cancels no pending scheduled reconnection — it
leaves the pending timers and the stored handle exactly as they were. -/
theorem closeSchedulesOneConnectCancelsNone (s : MgrState)
    (now code : Nat) (reason : String) (h : code ≠ 1000) :
    ((stepMgr s now (MgrEvent.wsClose code reason)).pendingReconnects
        = s.pendingReconnects
          ++ [{ id := s.nextTimerId, due := now + RECONNECT_DELAY }]
      ∧ (stepMgr s now (MgrEvent.wsClose code reason)).reconnectRef
        = some s.nextTimerId)
    ∧ ∀ (s2 : MgrState) (n2 : Nat),
        (stepMgr s2 n2 MgrEvent.connect).pendingReconnects
          = s2.pendingReconnects
        ∧ (stepMgr s2 n2 MgrEvent.connect).reconnectRef = s2.reconnectRef :=
  ⟨close_schedules_one s now code reason h,
   fun s2 _n2 => ⟨(connectBody_timers s2).1, (connectBody_timers s2).2.1⟩⟩

/-- Witness for the amended C3 at a concrete abnormal close and a concrete
`connect()`. -/
theorem closeSchedulesOneConnectCancelsNone_witness :
    (stepMgr initMgrState 5 (MgrEvent.wsClose 1006 "")).pendingReconnects
      = initMgrState.pendingReconnects
        ++ [{ id := initMgrState.nextTimerId, due := 5 + RECONNECT_DELAY }]
    ∧ (stepMgr initMgrState 7 MgrEvent.connect).reconnectRef
      = initMgrState.reconnectRef :=
  ⟨(closeSchedulesOneConnectCancelsNone initMgrState 5 1006 ""
      (by decide)).1.1,
   ((closeSchedulesOneConnectCancelsNone initMgrState 5 1006 ""
      (by decide)).2 initMgrState 7).2⟩

/-- C4 counterexample: from the close/connect/close trace, `disconnect()` at
t=1500ms cancels only the ref'd timer (id 1); the orphaned timer id 0 (due
t=3010ms) stays pending and, firing at t=3010ms — within one
reconnect-delay interval of the disconnect — re-establishes a transport. -/
theorem orphanTimerFiresAfterDisconnect :
    (stepMgr (runMgr initMgrState demoCloseTrace) 1500
        MgrEvent.disconnect).pendingReconnects = [{ id := 0, due := 3010 }]
    ∧ (stepMgr (runMgr initMgrState demoCloseTrace) 1500
        MgrEvent.disconnect).ws = none
    ∧ (stepMgr (stepMgr (runMgr initMgrState demoCloseTrace) 1500
        MgrEvent.disconnect) 3010 (MgrEvent.fireReconnect 0)).ws
        = some WsReady.connecting
    ∧ 3010 < 1500 + RECONNECT_DELAY := by
  decide

/-- C4 amended: `disconnect()` at time `d` cancels the ref-held reconnect
timer and the heartbeat, nulls the transport handle (after closing it with
the normal-closure signal, whose induced close event — code 1000 — schedules
nothing, see `close_clean_schedules_none`) and marks the connection
disconnected; PROVIDED the ref-held timer was the only pending reconnect,
the pending set is then empty and along any subsequent event trace no
reconnect timer can fire before `d + RECONNECT_DELAY` — every
`fireReconnect` within that interval is a no-op. -/
theorem disconnectQuiescesWithoutOrphans (s : MgrState) (d : Nat)
    (h : ∀ tm ∈ s.pendingReconnects, s.reconnectRef = some tm.id) :
    (stepMgr s d MgrEvent.disconnect).pendingReconnects = []
    ∧ (stepMgr s d MgrEvent.disconnect).reconnectRef = none
    ∧ (stepMgr s d MgrEvent.disconnect).pingRef = none
    ∧ (stepMgr s d MgrEvent.disconnect).ws = none
    ∧ (stepMgr s d MgrEvent.disconnect).wsConnected = false
    ∧ ∀ tr : List TimedEvent, (∀ te ∈ tr, d ≤ te.time) →
        ∀ t now2 : Nat, now2 < d + RECONNECT_DELAY →
          stepMgr (runMgr (stepMgr s d MgrEvent.disconnect) tr) now2
              (MgrEvent.fireReconnect t)
            = runMgr (stepMgr s d MgrEvent.disconnect) tr := by
  refine ⟨disconnect_pending_nil s d h, (disconnect_effects s d).1,
    (disconnect_effects s d).2.1, (disconnect_effects s d).2.2.1,
    (disconnect_effects s d).2.2.2, ?_⟩
  intro tr htr t now2 hlt
  have hbase : ∀ tm ∈ (stepMgr s d MgrEvent.disconnect).pendingReconnects,
      d + RECONNECT_DELAY ≤ tm.due := by
    rw [disconnect_pending_nil s d h]
    intro tm hm
    cases hm
  have hall : ∀ tm ∈ (runMgr (stepMgr s d MgrEvent.disconnect)
      tr).pendingReconnects, d + RECONNECT_DELAY ≤ tm.due :=
    runMgr_preserves_due_lb (d + RECONNECT_DELAY) tr
      (stepMgr s d MgrEvent.disconnect) hbase
      (fun te hte => Nat.add_le_add_right (htr te hte) RECONNECT_DELAY)
  exact fireReconnect_noop _ now2 t
    (fun tm hm => Nat.lt_of_lt_of_le hlt (hall tm hm))

/-- Witness for the amended C4: one connect, one unrequested close (a single
pending reconnect, held by the ref), then `disconnect()` at t=20ms — the
pending set is empty and a `fireReconnect` at t=100ms does nothing. -/
theorem disconnectQuiescesWithoutOrphans_witness :
    (stepMgr (runMgr initMgrState demoCloseOnce) 20
        MgrEvent.disconnect).pendingReconnects = []
    ∧ stepMgr (stepMgr (runMgr initMgrState demoCloseOnce) 20
        MgrEvent.disconnect) 100 (MgrEvent.fireReconnect 0)
      = stepMgr (runMgr initMgrState demoCloseOnce) 20 MgrEvent.disconnect :=
  ⟨(disconnectQuiescesWithoutOrphans (runMgr initMgrState demoCloseOnce) 20
      (by decide)).1,
   (disconnectQuiescesWithoutOrphans (runMgr initMgrState demoCloseOnce) 20
      (by decide)).2.2.2.2.2 [] (by simp) 0 100 (by decide)⟩
